import Mathlib

/-!
Verification of the connection-lifecycle orchestrator (ProtocolManager) and
the broadcast hub (the two WebSocketManager implementations) of the
industrial-iot-full-stack backend.

The Python code is shallowly embedded: dictionaries become association
lists, the opaque underlying protocol services become oracle parameters
(a `SvcResult` saying whether the service call returned True, returned
False, or raised), the database of `Protocol` documents becomes a list of
records carried in the manager state, and wall-clock timestamps become
integers (seconds).  Every definition follows the corresponding Python
function line by line; the file names each source function it embeds.
-/

set_option autoImplicit false

namespace IoTGateway

/-! Association lists standing for Python `dict`s.  Assignment replaces an
existing binding in place or appends a fresh one, matching `d[k] = v`;
`erase` matches `del d[k]` on the unique binding. -/

namespace Dict

def lookup {K V : Type} [DecidableEq K] (k : K) : List (K × V) → Option V
  | [] => none
  | (k', v) :: rest => if k' = k then some v else lookup k rest

def insert {K V : Type} [DecidableEq K] (k : K) (v : V) : List (K × V) → List (K × V)
  | [] => [(k, v)]
  | (k', v') :: rest => if k' = k then (k, v) :: rest else (k', v') :: insert k v rest

def erase {K V : Type} [DecidableEq K] (k : K) (l : List (K × V)) : List (K × V) :=
  l.filter (fun p => p.1 ≠ k)

end Dict

/-! The protocol-type enumeration, from `models/protocol.py` (`ProtocolType`),
and its string conversion: `ProtocolType(s)` in Python raises `ValueError`
for a string that is not one of the seven values, which the embedding
renders as `fromString` returning `none`. -/

inductive ProtocolType where
  | modbus_tcp
  | opc_ua
  | profinet
  | ethernet_ip
  | mqtt
  | canopen
  | bacnet
  deriving DecidableEq

def ProtocolType.value : ProtocolType → String
  | .modbus_tcp => "modbus-tcp"
  | .opc_ua => "opc-ua"
  | .profinet => "profinet"
  | .ethernet_ip => "ethernet-ip"
  | .mqtt => "mqtt"
  | .canopen => "canopen"
  | .bacnet => "bacnet"

def ProtocolType.fromString (s : String) : Option ProtocolType :=
  if s = "modbus-tcp" then some .modbus_tcp
  else if s = "opc-ua" then some .opc_ua
  else if s = "profinet" then some .profinet
  else if s = "ethernet-ip" then some .ethernet_ip
  else if s = "mqtt" then some .mqtt
  else if s = "canopen" then some .canopen
  else if s = "bacnet" then some .bacnet
  else none

/-- Status values of the `Protocol` document, from `models/protocol.py`
(`ProtocolStatus`). -/
inductive DbStatus where
  | connected
  | disconnected
  | error
  deriving DecidableEq

/-- A configuration blob: an opaque key/value map. -/
def Config : Type := List (String × String)

instance : DecidableEq Config := by
  unfold Config
  infer_instance

/-- A `Protocol` document in the database, restricted to the fields the
manager reads (`id`, `type`, `status`, `configuration`). -/
structure DbProtocol where
  id : String
  type : ProtocolType
  status : DbStatus
  configuration : Config
  deriving DecidableEq

/-- One value of `ProtocolManager.running_protocols`: the dict built at
`protocol_manager.py` lines 35-41 (the opaque `service` object is modelled
by oracle parameters where it is consulted). -/
structure RunInfo where
  protocol_type : String
  configuration : Config
  started_at : Int
  status : String
  deriving DecidableEq

/-- The state a `ProtocolManager` instance can reach: its
`running_protocols` dict plus the `Protocol` documents the database holds
(`Protocol.get` / `Protocol.find_all` / `protocol.save` act on the latter). -/
structure MgrState where
  running_protocols : List (String × RunInfo)
  db : List DbProtocol
  deriving DecidableEq

/-- Outcome of an awaited call on an underlying protocol service:
the call returned `True`, returned `False`, or raised. -/
inductive SvcResult where
  | ok
  | failed
  | raised
  deriving DecidableEq

/-- The `protocol_type` argument of `start_protocol`: callers pass either a
string (the API paths) or a `ProtocolType` member (`start_all_protocols`
passes `protocol.type` directly). -/
def resolveType : Sum String ProtocolType → Option ProtocolType
  | .inl s => ProtocolType.fromString s
  | .inr t => some t

/-- `Protocol.get(id)` followed by a status write and `save`: updates the
status of the document with the given id when one exists, otherwise leaves
the database unchanged. -/
def setDbStatus (db : List DbProtocol) (id : String) (s : DbStatus) : List DbProtocol :=
  db.map (fun p => if p.id = id then { p with status := s } else p)

namespace ProtocolManager

/-- `ProtocolManager.start_protocol` (protocol_manager.py lines 16-66).
`avail` models `get_protocol_service` returning a service or `None` (a
`None` raises inside the `try`, landing in the handler that marks the
database record `error`); `svc` is the outcome of
`service.start_protocol(protocol_id, configuration)`.  A string
`protocol_type` that is no member of the enumeration returns `False`
before anything else happens. -/
def start_protocol (st : MgrState) (protocol_id : String)
    (protocol_type : Sum String ProtocolType) (configuration : Config)
    (avail : ProtocolType → Bool) (svc : SvcResult) (now : Int) : Bool × MgrState :=
  match resolveType protocol_type with
  | none => (false, st)
  | some pt =>
    if avail pt then
      match svc with
      | .ok =>
        let info : RunInfo :=
          { protocol_type := pt.value
            configuration := configuration
            started_at := now
            status := "running" }
        (true,
          { running_protocols := Dict.insert protocol_id info st.running_protocols
            db := setDbStatus st.db protocol_id .connected })
      | .failed => (false, st)
      | .raised => (false, { st with db := setDbStatus st.db protocol_id .error })
    else
      (false, { st with db := setDbStatus st.db protocol_id .error })

/-- `ProtocolManager.stop_protocol` (protocol_manager.py lines 68-97).
An id absent from `running_protocols` returns `True` at once ("Already
stopped"); otherwise `svc` is the outcome of
`service.stop_protocol(protocol_id)`, and only a `True` outcome deletes
the record and marks the database document disconnected. -/
def stop_protocol (st : MgrState) (protocol_id : String) (svc : SvcResult) :
    Bool × MgrState :=
  match Dict.lookup protocol_id st.running_protocols with
  | none => (true, st)
  | some _ =>
    match svc with
    | .ok =>
      (true,
        { running_protocols := Dict.erase protocol_id st.running_protocols
          db := setDbStatus st.db protocol_id .disconnected })
    | .failed => (false, st)
    | .raised => (false, st)

/-- `ProtocolManager.restart_protocol` (protocol_manager.py lines 99-123).
When the id is running it captures the stored type string and
configuration, stops (result ignored), sleeps, and starts again; when the
id is not running it logs "Cannot restart protocol - not running" and
returns `False` without touching anything. -/
def restart_protocol (st : MgrState) (protocol_id : String)
    (avail : ProtocolType → Bool) (svcStop svcStart : SvcResult) (now : Int) :
    Bool × MgrState :=
  match Dict.lookup protocol_id st.running_protocols with
  | some info =>
    let st1 := (stop_protocol st protocol_id svcStop).2
    start_protocol st1 protocol_id (Sum.inl info.protocol_type) info.configuration
      avail svcStart now
  | none => (false, st)

/-- Snapshot returned by `get_protocol_status`: the `status` string plus the
fields only present for a running protocol. -/
structure StatusReport where
  status : String
  protocol_id : String
  protocol_type : Option String
  configuration : Option Config
  active_connections : Option Nat
  is_monitoring : Option Bool
  uptime_seconds : Option Int
  deriving DecidableEq

/-- `ProtocolManager.get_protocol_status` (protocol_manager.py lines
167-188).  An id absent from `running_protocols` reports `"stopped"`;
otherwise `"running"` with the stored fields (`svcConns` and
`svcMonitoring` stand for `len(service.active_connections)` and
`service.is_running`). -/
def get_protocol_status (st : MgrState) (protocol_id : String)
    (svcConns : Nat) (svcMonitoring : Bool) (now : Int) : StatusReport :=
  match Dict.lookup protocol_id st.running_protocols with
  | none =>
    { status := "stopped"
      protocol_id := protocol_id
      protocol_type := none
      configuration := none
      active_connections := none
      is_monitoring := none
      uptime_seconds := none }
  | some info =>
    { status := "running"
      protocol_id := protocol_id
      protocol_type := some info.protocol_type
      configuration := some info.configuration
      active_connections := some svcConns
      is_monitoring := some svcMonitoring
      uptime_seconds := some (now - info.started_at) }

/-- The loop body of `start_all_protocols` (protocol_manager.py lines
131-140): iterate over the snapshot of database documents, start each one
whose stored status is connected, and keep the running success count. -/
def startAllGo (avail : ProtocolType → Bool) (svc : String → SvcResult) (now : Int) :
    List DbProtocol → MgrState → Nat → Nat × MgrState
  | [], st, count => (count, st)
  | p :: rest, st, count =>
    if p.status = DbStatus.connected then
      let r := start_protocol st p.id (Sum.inr p.type) p.configuration avail (svc p.id) now
      startAllGo avail svc now rest r.2 (if r.1 then count + 1 else count)
    else
      startAllGo avail svc now rest st count

/-- `ProtocolManager.start_all_protocols` (protocol_manager.py lines
125-147).  The middle component is the internal `started_count`, which the
Python only logs; the first component is the function's actual return
value, the literal `True` of line 143. -/
def start_all_protocols (st : MgrState) (avail : ProtocolType → Bool)
    (svc : String → SvcResult) (now : Int) : Bool × Nat × MgrState :=
  let r := startAllGo avail svc now st.db st 0
  (true, r.1, r.2)

end ProtocolManager

/-- Spec-side composition for the restart claim, built from the spec's
words: "restart(id) is observably equivalent to stop(id); start(id,
sameConfig)" — a stop whose returned flag is ignored, followed by a start
with the same configuration. -/
def restartSpec (st : MgrState) (protocol_id : String)
    (sameType : Sum String ProtocolType) (sameConfig : Config)
    (avail : ProtocolType → Bool) (svcStop svcStart : SvcResult) (now : Int) :
    Bool × MgrState :=
  let st1 := (ProtocolManager.stop_protocol st protocol_id svcStop).2
  ProtocolManager.start_protocol st1 protocol_id sameType sameConfig avail svcStart now

/-! Broadcast hub.  Two WebSocketManager classes exist in the repository
and both are live: `services/websocket_manager.py` (namespace `WsSvc`
below) runs the heartbeat and cleanup loops and receives the broadcasts
of `base_protocol.py`, while `api/websocket.py` (namespace `WsApi`) owns
the subscriber endpoints mounted by `main.py`.  Subscriber handles are
naturals; the transport behaviour of one send is an oracle value. -/

/-- Behaviour of one delivery attempt to one subscriber handle: the
`client_state == CONNECTED` test failed, the send succeeded, or
`send_text` raised (`WebSocketDisconnect` or any other exception). -/
inductive SendOutcome where
  | ok
  | notConnected
  | raiseDisconnect
  | raiseOther
  deriving DecidableEq

namespace WsSvc

/-- One value of `WebSocketManager.connection_info` in
`services/websocket_manager.py` (lines 35-42). -/
structure ConnInfo where
  channel : String
  connected_at : Int
  client_info : List (String × String)
  messages_sent : Nat
  messages_received : Nat
  last_heartbeat : Int
  deriving DecidableEq

/-- State of the `services/websocket_manager.py` manager: channel name to
subscriber set, plus per-subscriber metadata. -/
structure HubState where
  active_connections : List (String × List Nat)
  connection_info : List (Nat × ConnInfo)
  deriving DecidableEq

/-- The manager's constructor state (lines 16-21): the three predefined
channels, all empty. -/
def initialState : HubState :=
  { active_connections := [("monitoring", []), ("connections", []), ("logs", [])]
    connection_info := [] }

/-- Python's `set.add`: append the handle unless already a member. -/
def addToChannel (ac : List (String × List Nat)) (channel : String) (ws : Nat) :
    List (String × List Nat) :=
  ac.map (fun c => if c.1 = channel then (c.1, if ws ∈ c.2 then c.2 else c.2 ++ [ws]) else c)

/-- The `messages_sent` increment guarded by `if connection in
self.connection_info` (line 130-131). -/
def bumpSent (info : List (Nat × ConnInfo)) (ws : Nat) : List (Nat × ConnInfo) :=
  info.map (fun p =>
    if p.1 = ws then (p.1, { p.2 with messages_sent := p.2.messages_sent + 1 }) else p)

/-- `WebSocketManager.disconnect` (lines 60-80): discard the handle from
every channel set and delete its `connection_info` entry. -/
def disconnect (st : HubState) (ws : Nat) : HubState :=
  { active_connections := st.active_connections.map (fun c => (c.1, c.2.filter (fun x => x ≠ ws)))
    connection_info := st.connection_info.filter (fun p => p.1 ≠ ws) }

/-- `self.active_connections[channel].discard(connection)` of the
not-connected branch (line 136): removal from that one channel only. -/
def discardFromChannel (ac : List (String × List Nat)) (channel : String) (ws : Nat) :
    List (String × List Nat) :=
  ac.map (fun c => if c.1 = channel then (c.1, c.2.filter (fun x => x ≠ ws)) else c)

/-- The `for connection in connections` loop of `broadcast` (lines
124-148), iterating over the copied subscriber list and threading the
manager state; returns the final state and the successfully-delivered
handles in send order.  A send success bumps the counter; a failed
connected-state test removes the handle from this channel's set and from
`connection_info`; a raising send runs `disconnect`. -/
def broadcastGo (channel : String) (outcome : Nat → SendOutcome) :
    List Nat → HubState → HubState × List Nat
  | [], st => (st, [])
  | c :: rest, st =>
    match outcome c with
    | .ok =>
      let st1 : HubState := { st with connection_info := bumpSent st.connection_info c }
      let r := broadcastGo channel outcome rest st1
      (r.1, c :: r.2)
    | .notConnected =>
      let st1 : HubState :=
        { active_connections := discardFromChannel st.active_connections channel c
          connection_info := st.connection_info.filter (fun p => p.1 ≠ c) }
      broadcastGo channel outcome rest st1
    | .raiseDisconnect => broadcastGo channel outcome rest (disconnect st c)
    | .raiseOther => broadcastGo channel outcome rest (disconnect st c)

/-- `WebSocketManager.broadcast` (lines 110-151).  A channel absent from
`active_connections` returns at once; otherwise the loop runs over a copy
of the channel's subscriber set.  The timestamp attached to the message
touches only the local message dict, so it does not appear in the state. -/
def broadcast (st : HubState) (channel : String) (outcome : Nat → SendOutcome) :
    HubState × List Nat :=
  match Dict.lookup channel st.active_connections with
  | none => (st, [])
  | some conns => broadcastGo channel outcome conns st

/-- `WebSocketManager.cleanup_broken_connections` (lines 219-244): collect
every subscriber whose last heartbeat is more than 300 seconds old or
whose handle is no longer in the connected state, then `disconnect` each
collected handle.  `alive` models `client_state == CONNECTED`. -/
def cleanup_broken_connections (st : HubState) (now : Int) (alive : Nat → Bool) : HubState :=
  let broken := (st.connection_info.filter
    (fun p => decide (now - p.2.last_heartbeat > 300) || !(alive p.1))).map (fun p => p.1)
  broken.foldl disconnect st

/-- The handle is nowhere in the manager state: no metadata entry and no
membership in any channel's subscriber set. -/
def evicted (st : HubState) (ws : Nat) : Prop :=
  (∀ p ∈ st.connection_info, p.1 ≠ ws) ∧ ∀ c ∈ st.active_connections, ws ∉ c.2

/-- The handle has no metadata entry and is in no subscriber set stored
under the given channel name. -/
def removedFrom (st : HubState) (channel : String) (ws : Nat) : Prop :=
  (∀ p ∈ st.connection_info, p.1 ≠ ws) ∧
  ∀ c ∈ st.active_connections, c.1 = channel → ws ∉ c.2

end WsSvc

/-- A JSON-like value, enough to express the hub's outbound messages
(timestamps are rendered as their integer clock value). -/
inductive JVal where
  | s : String → JVal
  | n : Int → JVal
  | obj : List (String × JVal) → JVal
  | arr : List JVal → JVal

/-- An outbound message: a JSON object as a field list. -/
def Msg : Type := List (String × JVal)

namespace WsApi

/-- One value of `WebSocketManager.connection_info` in `api/websocket.py`
(lines 52-59). -/
structure ConnInfo where
  channel : String
  connected_at : Int
  messages_sent : Nat
  messages_received : Nat
  last_heartbeat : Int
  client_id : String
  deriving DecidableEq

/-- State of the `api/websocket.py` manager. -/
structure HubState where
  active_connections : List (String × List Nat)
  connection_info : List (Nat × ConnInfo)
  deriving DecidableEq

/-- The constructor state (lines 15-22): six predefined channels. -/
def initialState : HubState :=
  { active_connections :=
      [("monitoring", []), ("connections", []), ("logs", []),
       ("alerts", []), ("data", []), ("system", [])]
    connection_info := [] }

/-- Python's `set.add` for this manager's channel sets. -/
def addToChannel (ac : List (String × List Nat)) (channel : String) (ws : Nat) :
    List (String × List Nat) :=
  ac.map (fun c => if c.1 = channel then (c.1, if ws ∈ c.2 then c.2 else c.2 ++ [ws]) else c)

/-- The guarded `messages_sent` increment of the broadcast loop (lines
196-197). -/
def bumpSent (info : List (Nat × ConnInfo)) (ws : Nat) : List (Nat × ConnInfo) :=
  info.map (fun p =>
    if p.1 = ws then (p.1, { p.2 with messages_sent := p.2.messages_sent + 1 }) else p)

/-- The `for connection in connections` loop of `broadcast` (lines
189-203): threads `connection_info` (send successes bump the counter) and
accumulates, in order, the delivered handles and the `disconnected` list
(a failed connected-state test or a raising send both only append the
handle there). -/
def broadcastGo (outcome : Nat → SendOutcome) :
    List Nat → List (Nat × ConnInfo) → List (Nat × ConnInfo) × List Nat × List Nat
  | [], info => (info, [], [])
  | c :: rest, info =>
    match outcome c with
    | .ok =>
      let r := broadcastGo outcome rest (bumpSent info c)
      (r.1, c :: r.2.1, r.2.2)
    | .notConnected =>
      let r := broadcastGo outcome rest info
      (r.1, r.2.1, c :: r.2.2)
    | .raiseDisconnect =>
      let r := broadcastGo outcome rest info
      (r.1, r.2.1, c :: r.2.2)
    | .raiseOther =>
      let r := broadcastGo outcome rest info
      (r.1, r.2.1, c :: r.2.2)

/-- `WebSocketManager.broadcast` of `api/websocket.py` (lines 167-214).
An unknown channel returns at once, as does an empty subscriber set; after
the loop, every handle collected in `disconnected` is discarded from this
channel's set and dropped from `connection_info`. -/
def broadcast (st : HubState) (channel : String) (outcome : Nat → SendOutcome) :
    HubState × List Nat :=
  match Dict.lookup channel st.active_connections with
  | none => (st, [])
  | some conns =>
    if conns.isEmpty then (st, [])
    else
      let r := broadcastGo outcome conns st.connection_info
      ({ active_connections := st.active_connections.map
            (fun c => if c.1 = channel then (c.1, c.2.filter (fun x => ¬ r.2.2.contains x)) else c)
         connection_info := r.1.filter (fun p => ¬ r.2.2.contains p.1) },
       r.2.1)

/-- Sum of the channel set sizes, as in
`sum(len(conns) for conns in self.active_connections.values())`. -/
def totalConnections (ac : List (String × List Nat)) : Nat :=
  (ac.map (fun c => c.2.length)).sum

/-- The counter-and-heartbeat update `send_to_websocket` performs after a
successful send (lines 159-161). -/
def bumpSentHb (info : List (Nat × ConnInfo)) (ws : Nat) (now : Int) :
    List (Nat × ConnInfo) :=
  info.map (fun p =>
    if p.1 = ws
    then (p.1, { p.2 with messages_sent := p.2.messages_sent + 1, last_heartbeat := now })
    else p)

/-- The channel map as `connect` leaves it: the channel entry created on
first use, the handle added to the channel's set. -/
def acAfterConnect (st : HubState) (ws : Nat) (channel : String) :
    List (String × List Nat) :=
  let ac0 :=
    if Dict.lookup channel st.active_connections = none
    then st.active_connections ++ [(channel, [])]
    else st.active_connections
  addToChannel ac0 channel ws

/-- `WebSocketManager.connect` of `api/websocket.py` (lines 43-80), on the
path where `accept` succeeds and the socket stays connected: register the
handle in the channel set (creating the channel entry on first use) and in
`connection_info`, then send the welcome message, then the channel's
initial snapshot when it has one ("alerts" and "monitoring"; their data
payloads come from collaborators and are passed in opaque).  Returns the
new state and the messages sent to the new subscriber, in send order. -/
def connect (st : HubState) (ws : Nat) (channel : String) (now : Int)
    (alertsData monitoringData : JVal) : HubState × List Msg :=
  let ac1 := acAfterConnect st ws channel
  let chanLen := ((Dict.lookup channel ac1).getD []).length
  let client_id := channel ++ "_" ++ toString chanLen
  let info : ConnInfo :=
    { channel := channel
      connected_at := now
      messages_sent := 0
      messages_received := 0
      last_heartbeat := now
      client_id := client_id }
  let welcome : Msg :=
    [("type", JVal.s "connection_established"),
     ("channel", JVal.s channel),
     ("timestamp", JVal.n now),
     ("client_id", JVal.s client_id),
     ("server_info", JVal.obj
       [("channel_connections", JVal.n chanLen),
        ("total_connections", JVal.n (totalConnections ac1)),
        ("available_channels", JVal.arr (ac1.map (fun c => JVal.s c.1)))])]
  let initial : List Msg :=
    if channel = "alerts" then [[("type", JVal.s "initial_alerts"), ("data", alertsData)]]
    else if channel = "monitoring" then
      [[("type", JVal.s "initial_monitoring"), ("data", monitoringData)]]
    else []
  let msgs := welcome :: initial
  let st1 : HubState := { active_connections := ac1
                          connection_info := Dict.insert ws info st.connection_info }
  let st2 := msgs.foldl (fun s _ => { s with connection_info := bumpSentHb s.connection_info ws now }) st1
  (st2, msgs)

end WsApi

/-- `WebSocketManager.connect` of `services/websocket_manager.py` (lines
26-58), on the path where `accept` succeeds: register the handle and send
the welcome message through `send_personal_message`, which stamps a
timestamp onto the message and bumps the sender counter.  Returns the new
state and the messages sent to the new subscriber, in send order. -/
def WsSvc.connect (st : WsSvc.HubState) (ws : Nat) (channel : String)
    (client_info : List (String × String)) (now : Int) :
    WsSvc.HubState × List Msg :=
  let ac0 :=
    if Dict.lookup channel st.active_connections = none
    then st.active_connections ++ [(channel, [])]
    else st.active_connections
  let ac1 := WsSvc.addToChannel ac0 channel ws
  let info : WsSvc.ConnInfo :=
    { channel := channel
      connected_at := now
      client_info := client_info
      messages_sent := 0
      messages_received := 0
      last_heartbeat := now }
  let welcome : Msg :=
    [("type", JVal.s "connection_confirmed"),
     ("data", JVal.obj
       [("channel", JVal.s channel),
        ("server_time", JVal.n now),
        ("message", JVal.s ("Connected to " ++ channel ++ " channel"))]),
     ("timestamp", JVal.n now)]
  let st1 : WsSvc.HubState := { active_connections := ac1
                                connection_info := Dict.insert ws info st.connection_info }
  let st2 : WsSvc.HubState := { st1 with connection_info := WsSvc.bumpSent st1.connection_info ws }
  (st2, [welcome])

/-! Concrete sample data used by the witness and counterexample theorems. -/

/-- A running-protocols record as `start_protocol` would build it. -/
def runInfo1 : RunInfo :=
  { protocol_type := "modbus-tcp", configuration := [], started_at := 0, status := "running" }

/-- A manager state with the single instance "p1" running. -/
def stRun1 : MgrState := { running_protocols := [("p1", runInfo1)], db := [] }

/-- A database document for instance "p2". -/
def dbP2 : DbProtocol :=
  { id := "p2", type := ProtocolType.modbus_tcp, status := DbStatus.disconnected
    configuration := [] }

/-- Five database documents, all previously connected, as in spec
scenario E. -/
def db5 : List DbProtocol :=
  [ { id := "c1", type := ProtocolType.modbus_tcp, status := DbStatus.connected, configuration := [] }
  , { id := "c2", type := ProtocolType.mqtt, status := DbStatus.connected, configuration := [] }
  , { id := "c3", type := ProtocolType.opc_ua, status := DbStatus.connected, configuration := [] }
  , { id := "c4", type := ProtocolType.bacnet, status := DbStatus.connected, configuration := [] }
  , { id := "c5", type := ProtocolType.canopen, status := DbStatus.connected, configuration := [] } ]

/-- A service behaviour where only instance "c3" fails to start. -/
def svcFailC3 : String → SvcResult :=
  fun id => if id = "c3" then SvcResult.failed else SvcResult.ok

/-- A hub state with subscribers 0 and 1 on the monitoring channel. -/
def stHubSvc2 : WsSvc.HubState :=
  { active_connections := [("monitoring", [0, 1]), ("connections", []), ("logs", [])]
    connection_info :=
      [ (0, { channel := "monitoring", connected_at := 0, client_info := []
              messages_sent := 0, messages_received := 0, last_heartbeat := 0 })
      , (1, { channel := "monitoring", connected_at := 0, client_info := []
              messages_sent := 0, messages_received := 0, last_heartbeat := 0 }) ] }

/-- An api-hub state with subscribers 0 and 1 on the monitoring channel. -/
def stHubApi2 : WsApi.HubState :=
  { active_connections :=
      [("monitoring", [0, 1]), ("connections", []), ("logs", []),
       ("alerts", []), ("data", []), ("system", [])]
    connection_info :=
      [ (0, { channel := "monitoring", connected_at := 0, messages_sent := 0
              messages_received := 0, last_heartbeat := 0, client_id := "monitoring_1" })
      , (1, { channel := "monitoring", connected_at := 0, messages_sent := 0
              messages_received := 0, last_heartbeat := 0, client_id := "monitoring_2" }) ] }

/-- A transport behaviour where delivery to handle 0 raises and every
other delivery succeeds. -/
def outcomeFail0 : Nat → SendOutcome :=
  fun n => if n = 0 then SendOutcome.raiseOther else SendOutcome.ok

/-- A services-hub state with one fresh and one stale subscriber. -/
def stHubStale : WsSvc.HubState :=
  { active_connections := [("monitoring", [0, 1]), ("connections", []), ("logs", [])]
    connection_info :=
      [ (0, { channel := "monitoring", connected_at := 0, client_info := []
              messages_sent := 0, messages_received := 0, last_heartbeat := 0 })
      , (1, { channel := "monitoring", connected_at := 0, client_info := []
              messages_sent := 0, messages_received := 0, last_heartbeat := 400 }) ] }

/-! General lemmas about the embedding. -/

theorem Dict.lookup_mem {K V : Type} [DecidableEq K] {k : K} {v : V} :
    ∀ {l : List (K × V)}, Dict.lookup k l = some v → (k, v) ∈ l := by
  intro l
  induction l with
  | nil => intro h; simp [Dict.lookup] at h
  | cons p rest ih =>
    intro h
    obtain ⟨k', v'⟩ := p
    by_cases hk : k' = k
    · subst hk
      simp [Dict.lookup] at h
      subst h
      exact List.mem_cons_self _ _
    · simp [Dict.lookup, hk] at h
      exact List.mem_cons_of_mem _ (ih h)

theorem ProtocolType.fromString_value (t : ProtocolType) :
    ProtocolType.fromString t.value = some t := by
  cases t <;> rfl

theorem get_status_not_running (st : MgrState) (protocol_id : String)
    (svcConns : Nat) (svcMonitoring : Bool) (now : Int)
    (h : Dict.lookup protocol_id st.running_protocols = none) :
    (ProtocolManager.get_protocol_status st protocol_id svcConns svcMonitoring now).status
      = "stopped" := by
  unfold ProtocolManager.get_protocol_status
  rw [h]

theorem get_status_running (st : MgrState) (protocol_id : String) (info : RunInfo)
    (svcConns : Nat) (svcMonitoring : Bool) (now : Int)
    (h : Dict.lookup protocol_id st.running_protocols = some info) :
    (ProtocolManager.get_protocol_status st protocol_id svcConns svcMonitoring now).status
      = "running" := by
  unfold ProtocolManager.get_protocol_status
  rw [h]

theorem start_protocol_failure_unchanged (st : MgrState) (protocol_id : String)
    (ptype : Sum String ProtocolType) (configuration : Config)
    (avail : ProtocolType → Bool) (svc : SvcResult) (now : Int)
    (hsvc : svc ≠ SvcResult.ok) :
    (ProtocolManager.start_protocol st protocol_id ptype configuration avail svc now).1
        = false ∧
    (ProtocolManager.start_protocol st protocol_id ptype configuration
        avail svc now).2.running_protocols = st.running_protocols := by
  unfold ProtocolManager.start_protocol
  cases hres : resolveType ptype with
  | none => exact ⟨rfl, rfl⟩
  | some pt =>
    cases hav : avail pt with
    | true =>
      cases svc with
      | ok => exact absurd rfl hsvc
      | failed => simp [hav]
      | raised => simp [hav]
    | false => simp [hav]

theorem start_protocol_fst (st : MgrState) (protocol_id : String) (pt : ProtocolType)
    (configuration : Config) (avail : ProtocolType → Bool) (svc : SvcResult) (now : Int) :
    (ProtocolManager.start_protocol st protocol_id (Sum.inr pt) configuration avail svc now).1
      = (avail pt && decide (svc = SvcResult.ok)) := by
  unfold ProtocolManager.start_protocol resolveType
  cases hav : avail pt <;> cases svc <;> simp only [hav] <;> simp

theorem startAllGo_count (avail : ProtocolType → Bool) (svc : String → SvcResult) (now : Int) :
    ∀ (ps : List DbProtocol) (st : MgrState) (count : Nat),
    (ProtocolManager.startAllGo avail svc now ps st count).1 =
      count + ps.countP (fun p =>
        decide (p.status = DbStatus.connected) && avail p.type
          && decide (svc p.id = SvcResult.ok)) := by
  intro ps
  induction ps with
  | nil => intro st count; simp [ProtocolManager.startAllGo]
  | cons p rest ih =>
    intro st count
    unfold ProtocolManager.startAllGo
    rw [List.countP_cons]
    by_cases hc : p.status = DbStatus.connected
    · simp only [hc, if_true, decide_True, Bool.true_and]
      rw [ih, start_protocol_fst]
      cases hav : avail p.type <;> cases hs : decide (svc p.id = SvcResult.ok)
      all_goals simp [hav, hs]
      all_goals omega
    · simp only [hc, if_false, decide_False, Bool.false_and, Bool.and_false]
      rw [ih]
      simp

/-! Claim theorems for the connection-lifecycle orchestrator. -/

/-- C1 counterexample: in the reachable prior state where instance "p1"
was never started (equally, already stopped), `restart_protocol` returns
`False` and leaves the state unchanged, while the spec-side
`stop(id); start(id, sameConfig)` composition starts the instance and
returns `True`; final states and results differ, exactly on the
already-stopped case the claim says restart must tolerate. -/
theorem restart_not_running_counterexample :
    ProtocolManager.restart_protocol (MgrState.mk [] []) "p1" (fun _ => true)
        SvcResult.ok SvcResult.ok 0 = (false, MgrState.mk [] []) ∧
    (restartSpec (MgrState.mk [] []) "p1" (Sum.inl "modbus-tcp") [] (fun _ => true)
        SvcResult.ok SvcResult.ok 0).1 = true ∧
    (restartSpec (MgrState.mk [] []) "p1" (Sum.inl "modbus-tcp") [] (fun _ => true)
        SvcResult.ok SvcResult.ok 0).2 ≠ MgrState.mk [] [] := by
  decide

/-- C1 amended: when the instance is currently in the running set,
`restart_protocol` is exactly the spec composition stop-then-start with
the stored type tag and configuration; when it is not running the
equivalence fails (see the counterexample) because restart then refuses
and does nothing. -/
theorem restart_eq_stop_start_when_running (st : MgrState) (protocol_id : String)
    (info : RunInfo) (avail : ProtocolType → Bool) (svcStop svcStart : SvcResult) (now : Int)
    (hrun : Dict.lookup protocol_id st.running_protocols = some info) :
    ProtocolManager.restart_protocol st protocol_id avail svcStop svcStart now =
      restartSpec st protocol_id (Sum.inl info.protocol_type) info.configuration
        avail svcStop svcStart now := by
  unfold ProtocolManager.restart_protocol restartSpec
  rw [hrun]

theorem restart_eq_stop_start_when_running_witness :
    Dict.lookup "p1" stRun1.running_protocols = some runInfo1 ∧
    ProtocolManager.restart_protocol stRun1 "p1" (fun _ => true) SvcResult.ok SvcResult.ok 5 =
      restartSpec stRun1 "p1" (Sum.inl runInfo1.protocol_type) runInfo1.configuration
        (fun _ => true) SvcResult.ok SvcResult.ok 5 :=
  ⟨rfl, restart_eq_stop_start_when_running stRun1 "p1" runInfo1 (fun _ => true)
    SvcResult.ok SvcResult.ok 5 rfl⟩

/-- C2 counterexample: with "p2" present in the database and absent from
the running set, a start whose underlying service raises returns `False`
as claimed, but the subsequent `get_protocol_status` reports `"stopped"`,
never an error state; the claim's status half is false at this input. -/
theorem start_failure_status_counterexample :
    (ProtocolManager.start_protocol (MgrState.mk [] [dbP2]) "p2" (Sum.inl "modbus-tcp") []
        (fun _ => true) SvcResult.raised 0).1 = false ∧
    (ProtocolManager.get_protocol_status
        (ProtocolManager.start_protocol (MgrState.mk [] [dbP2]) "p2" (Sum.inl "modbus-tcp") []
            (fun _ => true) SvcResult.raised 0).2 "p2" 0 false 0).status = "stopped" ∧
    (ProtocolManager.get_protocol_status
        (ProtocolManager.start_protocol (MgrState.mk [] [dbP2]) "p2" (Sum.inl "modbus-tcp") []
            (fun _ => true) SvcResult.raised 0).2 "p2" 0 false 0).status ≠ "error" := by
  decide

/-- C2 amended: for an id not currently in the running set, a start whose
service is unavailable, reports failure, or raises returns `False`, and a
subsequent status query reports `"stopped"` — the id is not added to the
running set; an Error mark lands only on the database document and only
when the service raises or is unavailable. -/
theorem start_failure_reports_stopped (st : MgrState) (protocol_id : String)
    (ptype : Sum String ProtocolType) (configuration : Config)
    (avail : ProtocolType → Bool) (svc : SvcResult) (now : Int)
    (hrun : Dict.lookup protocol_id st.running_protocols = none)
    (hsvc : svc ≠ SvcResult.ok)
    (svcConns : Nat) (svcMonitoring : Bool) (now2 : Int) :
    (ProtocolManager.start_protocol st protocol_id ptype configuration avail svc now).1
        = false ∧
    (ProtocolManager.get_protocol_status
        (ProtocolManager.start_protocol st protocol_id ptype configuration avail svc now).2
        protocol_id svcConns svcMonitoring now2).status = "stopped" := by
  obtain ⟨h1, h2⟩ := start_protocol_failure_unchanged st protocol_id ptype configuration
    avail svc now hsvc
  refine ⟨h1, ?_⟩
  unfold ProtocolManager.get_protocol_status
  rw [h2, hrun]

theorem start_failure_reports_stopped_witness :
    Dict.lookup "p2" (MgrState.mk [] [dbP2]).running_protocols = none ∧
    SvcResult.failed ≠ SvcResult.ok ∧
    ((ProtocolManager.start_protocol (MgrState.mk [] [dbP2]) "p2" (Sum.inl "modbus-tcp") []
        (fun _ => true) SvcResult.failed 0).1 = false ∧
     (ProtocolManager.get_protocol_status
        (ProtocolManager.start_protocol (MgrState.mk [] [dbP2]) "p2" (Sum.inl "modbus-tcp") []
            (fun _ => true) SvcResult.failed 0).2 "p2" 0 false 0).status = "stopped") :=
  ⟨rfl, by decide,
    start_failure_reports_stopped (MgrState.mk [] [dbP2]) "p2" (Sum.inl "modbus-tcp") []
      (fun _ => true) SvcResult.failed 0 rfl (by decide) 0 false 0⟩

/-- C3 counterexample: over five previously-connected database instances
where only "c3" fails, the internal success counter is 4, instances "c4"
and "c5" still start (no abort), yet `start_all_protocols` returns the
constant `True` — as it also does when all five succeed — so its return
value is not the count of successfully started instances. -/
theorem start_all_returns_true_counterexample :
    (ProtocolManager.start_all_protocols (MgrState.mk [] db5) (fun _ => true) svcFailC3 0).1
        = true ∧
    (ProtocolManager.start_all_protocols (MgrState.mk [] db5) (fun _ => true) svcFailC3 0).2.1
        = 4 ∧
    Dict.lookup "c3" (ProtocolManager.start_all_protocols (MgrState.mk [] db5)
        (fun _ => true) svcFailC3 0).2.2.running_protocols = none ∧
    (Dict.lookup "c4" (ProtocolManager.start_all_protocols (MgrState.mk [] db5)
        (fun _ => true) svcFailC3 0).2.2.running_protocols).isSome = true ∧
    (Dict.lookup "c5" (ProtocolManager.start_all_protocols (MgrState.mk [] db5)
        (fun _ => true) svcFailC3 0).2.2.running_protocols).isSome = true ∧
    (ProtocolManager.start_all_protocols (MgrState.mk [] db5) (fun _ => true)
        (fun _ => SvcResult.ok) 0).1 = true ∧
    (ProtocolManager.start_all_protocols (MgrState.mk [] db5) (fun _ => true)
        (fun _ => SvcResult.ok) 0).2.1 = 5 := by
  decide

/-- C3 amended: `start_all_protocols` attempts every previously-connected
database instance independently — each instance's success depends only on
its own service availability and outcome, so one failure is skipped and
never aborts the rest, and the internal counter equals the number of
instances successfully started — but the operation returns the constant
`True`, only logging that count. -/
theorem start_all_isolation_and_count (st : MgrState) (avail : ProtocolType → Bool)
    (svc : String → SvcResult) (now : Int) :
    (ProtocolManager.start_all_protocols st avail svc now).1 = true ∧
    (ProtocolManager.start_all_protocols st avail svc now).2.1 =
      st.db.countP (fun p =>
        decide (p.status = DbStatus.connected) && avail p.type
          && decide (svc p.id = SvcResult.ok)) := by
  refine ⟨rfl, ?_⟩
  show (ProtocolManager.startAllGo avail svc now st.db st 0).1 = _
  rw [startAllGo_count]
  simp

/-- C4: `stop_protocol` called on an id that is not in the running set
(never started or already stopped) returns success and leaves the whole
manager state, in particular the running set, unchanged. -/
theorem stop_protocol_not_running_succeeds (st : MgrState) (protocol_id : String)
    (svc : SvcResult) (h : Dict.lookup protocol_id st.running_protocols = none) :
    ProtocolManager.stop_protocol st protocol_id svc = (true, st) := by
  unfold ProtocolManager.stop_protocol
  rw [h]

theorem stop_protocol_not_running_succeeds_witness :
    Dict.lookup "p1" (MgrState.mk [] []).running_protocols = none ∧
    ProtocolManager.stop_protocol (MgrState.mk [] []) "p1" SvcResult.ok
      = (true, MgrState.mk [] []) :=
  ⟨rfl, stop_protocol_not_running_succeeds (MgrState.mk [] []) "p1" SvcResult.ok rfl⟩

/-- C8: a start whose protocol-type string is not one of the known
protocol tags is rejected synchronously: it returns `False` (no fault
escapes the boundary, since every path of the embedding is total and this
one is taken before any service call) and the manager state is untouched,
so the id is not added to the running set. -/
theorem start_protocol_unknown_type_rejected (st : MgrState) (protocol_id : String)
    (s : String) (configuration : Config) (avail : ProtocolType → Bool)
    (svc : SvcResult) (now : Int)
    (h : ProtocolType.fromString s = none) :
    ProtocolManager.start_protocol st protocol_id (Sum.inl s) configuration avail svc now
      = (false, st) := by
  unfold ProtocolManager.start_protocol
  rw [show resolveType (Sum.inl s) = none from h]

theorem start_protocol_unknown_type_rejected_witness :
    ProtocolType.fromString "bogus" = none ∧
    ProtocolManager.start_protocol (MgrState.mk [] []) "p9" (Sum.inl "bogus") []
        (fun _ => true) SvcResult.ok 0 = (false, MgrState.mk [] []) :=
  ⟨rfl, start_protocol_unknown_type_rejected (MgrState.mk [] []) "p9" "bogus" []
    (fun _ => true) SvcResult.ok 0 rfl⟩

/-- C10: when the instance is running and the underlying service's stop
reports failure or raises, `stop_protocol` returns `False` and the
manager state is left entirely unchanged — the record is not
half-removed — so the instance still reports a running status. -/
theorem stop_protocol_failure_keeps_running (st : MgrState) (protocol_id : String)
    (info : RunInfo) (svc : SvcResult)
    (hrun : Dict.lookup protocol_id st.running_protocols = some info)
    (hsvc : svc ≠ SvcResult.ok)
    (svcConns : Nat) (svcMonitoring : Bool) (now : Int) :
    ProtocolManager.stop_protocol st protocol_id svc = (false, st) ∧
    (ProtocolManager.get_protocol_status
        (ProtocolManager.stop_protocol st protocol_id svc).2 protocol_id
        svcConns svcMonitoring now).status = "running" := by
  have h1 : ProtocolManager.stop_protocol st protocol_id svc = (false, st) := by
    unfold ProtocolManager.stop_protocol
    rw [hrun]
    cases svc with
    | ok => exact absurd rfl hsvc
    | failed => rfl
    | raised => rfl
  refine ⟨h1, ?_⟩
  rw [h1]
  exact get_status_running st protocol_id info svcConns svcMonitoring now hrun

theorem stop_protocol_failure_keeps_running_witness :
    Dict.lookup "p1" stRun1.running_protocols = some runInfo1 ∧
    SvcResult.failed ≠ SvcResult.ok ∧
    (ProtocolManager.stop_protocol stRun1 "p1" SvcResult.failed = (false, stRun1) ∧
     (ProtocolManager.get_protocol_status
        (ProtocolManager.stop_protocol stRun1 "p1" SvcResult.failed).2 "p1"
        0 false 0).status = "running") :=
  ⟨rfl, by decide,
    stop_protocol_failure_keeps_running stRun1 "p1" runInfo1 SvcResult.failed rfl
      (by decide) 0 false 0⟩

/-! Lemmas about the broadcast hub embeddings. -/

theorem WsSvc.disconnect_evicted (st : WsSvc.HubState) (ws : Nat) :
    WsSvc.evicted (WsSvc.disconnect st ws) ws := by
  constructor
  · intro p hp
    simp only [WsSvc.disconnect, List.mem_filter, decide_eq_true_eq] at hp
    exact hp.2
  · intro c hc
    simp only [WsSvc.disconnect, List.mem_map] at hc
    obtain ⟨a, _, rfl⟩ := hc
    simp [List.mem_filter]

theorem WsSvc.disconnect_preserves_evicted (st : WsSvc.HubState) (w ws : Nat)
    (h : WsSvc.evicted st ws) : WsSvc.evicted (WsSvc.disconnect st w) ws := by
  obtain ⟨h1, h2⟩ := h
  constructor
  · intro p hp
    simp only [WsSvc.disconnect, List.mem_filter, decide_eq_true_eq] at hp
    exact h1 p hp.1
  · intro c hc
    simp only [WsSvc.disconnect, List.mem_map] at hc
    obtain ⟨a, ha, rfl⟩ := hc
    intro hmem
    exact h2 a ha (List.mem_filter.mp hmem).1

theorem WsSvc.foldl_disconnect_preserves (ws : Nat) :
    ∀ (l : List Nat) (st : WsSvc.HubState), WsSvc.evicted st ws →
      WsSvc.evicted (l.foldl WsSvc.disconnect st) ws := by
  intro l
  induction l with
  | nil => intro st h; exact h
  | cons b rest ih =>
    intro st h
    exact ih _ (WsSvc.disconnect_preserves_evicted st b ws h)

theorem WsSvc.foldl_disconnect_evicts (ws : Nat) :
    ∀ (l : List Nat) (st : WsSvc.HubState), ws ∈ l →
      WsSvc.evicted (l.foldl WsSvc.disconnect st) ws := by
  intro l
  induction l with
  | nil => intro st h; cases h
  | cons b rest ih =>
    intro st h
    rcases List.mem_cons.mp h with hb | h'
    · subst hb
      exact WsSvc.foldl_disconnect_preserves ws rest _ (WsSvc.disconnect_evicted st ws)
    · exact ih _ h'

theorem WsSvc.bumpSent_keys (info : List (Nat × WsSvc.ConnInfo)) (c ws : Nat)
    (h : ∀ p ∈ info, p.1 ≠ ws) : ∀ p ∈ WsSvc.bumpSent info c, p.1 ≠ ws := by
  intro p hp
  simp only [WsSvc.bumpSent, List.mem_map] at hp
  obtain ⟨q, hq, rfl⟩ := hp
  by_cases hqc : q.1 = c
  · simpa [hqc] using h q hq
  · simpa [hqc] using h q hq

theorem WsSvc.discardFromChannel_removes (ac : List (String × List Nat))
    (channel : String) (a : Nat) :
    ∀ c ∈ WsSvc.discardFromChannel ac channel a, c.1 = channel → a ∉ c.2 := by
  intro c hc
  simp only [WsSvc.discardFromChannel, List.mem_map] at hc
  obtain ⟨q, _, rfl⟩ := hc
  by_cases hqc : q.1 = channel
  · rw [if_pos hqc]
    intro _ hmem
    have := (List.mem_filter.mp hmem).2
    simp at this
  · rw [if_neg hqc]
    intro heq
    exact absurd heq hqc

theorem WsSvc.discardFromChannel_preserves (ac : List (String × List Nat))
    (channel : String) (w a : Nat)
    (h : ∀ c ∈ ac, c.1 = channel → a ∉ c.2) :
    ∀ c ∈ WsSvc.discardFromChannel ac channel w, c.1 = channel → a ∉ c.2 := by
  intro c hc
  simp only [WsSvc.discardFromChannel, List.mem_map] at hc
  obtain ⟨q, hq, rfl⟩ := hc
  by_cases hqc : q.1 = channel
  · rw [if_pos hqc]
    intro _ hmem
    exact h q hq hqc (List.mem_filter.mp hmem).1
  · rw [if_neg hqc]
    exact h q hq

theorem WsSvc.disconnect_preserves_removedFrom (st : WsSvc.HubState) (w : Nat)
    (channel : String) (ws : Nat) (h : WsSvc.removedFrom st channel ws) :
    WsSvc.removedFrom (WsSvc.disconnect st w) channel ws := by
  obtain ⟨h1, h2⟩ := h
  constructor
  · intro p hp
    simp only [WsSvc.disconnect, List.mem_filter, decide_eq_true_eq] at hp
    exact h1 p hp.1
  · intro c hc
    simp only [WsSvc.disconnect, List.mem_map] at hc
    obtain ⟨q, hq, rfl⟩ := hc
    intro heq hmem
    exact h2 q hq heq (List.mem_filter.mp hmem).1

theorem WsSvc.broadcastGo_preserves_removedFrom (channel : String)
    (outcome : Nat → SendOutcome) (ws : Nat) :
    ∀ (conns : List Nat) (st : WsSvc.HubState),
      WsSvc.removedFrom st channel ws →
      WsSvc.removedFrom (WsSvc.broadcastGo channel outcome conns st).1 channel ws := by
  intro conns
  induction conns with
  | nil => intro st h; exact h
  | cons c rest ih =>
    intro st h
    obtain ⟨h1, h2⟩ := h
    cases houtc : outcome c with
    | ok =>
      simp only [WsSvc.broadcastGo, houtc]
      exact ih _ ⟨WsSvc.bumpSent_keys st.connection_info c ws h1, h2⟩
    | notConnected =>
      simp only [WsSvc.broadcastGo, houtc]
      refine ih _ ⟨?_, WsSvc.discardFromChannel_preserves _ channel c ws h2⟩
      intro p hp
      exact h1 p (List.mem_filter.mp hp).1
    | raiseDisconnect =>
      simp only [WsSvc.broadcastGo, houtc]
      exact ih _ (WsSvc.disconnect_preserves_removedFrom st c channel ws ⟨h1, h2⟩)
    | raiseOther =>
      simp only [WsSvc.broadcastGo, houtc]
      exact ih _ (WsSvc.disconnect_preserves_removedFrom st c channel ws ⟨h1, h2⟩)

theorem WsSvc.broadcastGo_delivers (channel : String) (outcome : Nat → SendOutcome)
    (b : Nat) (hb : outcome b = SendOutcome.ok) :
    ∀ (conns : List Nat) (st : WsSvc.HubState), b ∈ conns →
      b ∈ (WsSvc.broadcastGo channel outcome conns st).2 := by
  intro conns
  induction conns with
  | nil => intro st h; cases h
  | cons c rest ih =>
    intro st h
    rcases List.mem_cons.mp h with hc | h'
    · subst hc
      simp only [WsSvc.broadcastGo, hb]
      exact List.mem_cons_self _ _
    · cases houtc : outcome c with
      | ok =>
        simp only [WsSvc.broadcastGo, houtc]
        exact List.mem_cons_of_mem _ (ih _ h')
      | notConnected =>
        simp only [WsSvc.broadcastGo, houtc]
        exact ih _ h'
      | raiseDisconnect =>
        simp only [WsSvc.broadcastGo, houtc]
        exact ih _ h'
      | raiseOther =>
        simp only [WsSvc.broadcastGo, houtc]
        exact ih _ h'

theorem WsSvc.broadcastGo_removes_failed (channel : String)
    (outcome : Nat → SendOutcome) (a : Nat) (ha : outcome a ≠ SendOutcome.ok) :
    ∀ (conns : List Nat) (st : WsSvc.HubState), a ∈ conns →
      WsSvc.removedFrom (WsSvc.broadcastGo channel outcome conns st).1 channel a := by
  intro conns
  induction conns with
  | nil => intro st h; cases h
  | cons c rest ih =>
    intro st h
    rcases List.mem_cons.mp h with hc | h'
    · subst hc
      cases houtc : outcome a with
      | ok => exact absurd houtc ha
      | notConnected =>
        simp only [WsSvc.broadcastGo, houtc]
        refine WsSvc.broadcastGo_preserves_removedFrom channel outcome a rest _
          ⟨?_, WsSvc.discardFromChannel_removes st.active_connections channel a⟩
        intro p hp
        have := (List.mem_filter.mp hp).2
        simpa using this
      | raiseDisconnect =>
        simp only [WsSvc.broadcastGo, houtc]
        have he := WsSvc.disconnect_evicted st a
        exact WsSvc.broadcastGo_preserves_removedFrom channel outcome a rest _
          ⟨he.1, fun c' hc' _ => he.2 c' hc'⟩
      | raiseOther =>
        simp only [WsSvc.broadcastGo, houtc]
        have he := WsSvc.disconnect_evicted st a
        exact WsSvc.broadcastGo_preserves_removedFrom channel outcome a rest _
          ⟨he.1, fun c' hc' _ => he.2 c' hc'⟩
    · cases houtc : outcome c with
      | ok =>
        simp only [WsSvc.broadcastGo, houtc]
        exact ih _ h'
      | notConnected =>
        simp only [WsSvc.broadcastGo, houtc]
        exact ih _ h'
      | raiseDisconnect =>
        simp only [WsSvc.broadcastGo, houtc]
        exact ih _ h'
      | raiseOther =>
        simp only [WsSvc.broadcastGo, houtc]
        exact ih _ h'

theorem WsApi.broadcastGo_sends_ok (outcome : Nat → SendOutcome) (b : Nat)
    (hb : outcome b = SendOutcome.ok) :
    ∀ (conns : List Nat) (info : List (Nat × WsApi.ConnInfo)), b ∈ conns →
      b ∈ (WsApi.broadcastGo outcome conns info).2.1 := by
  intro conns
  induction conns with
  | nil => intro info h; cases h
  | cons c rest ih =>
    intro info h
    rcases List.mem_cons.mp h with hc | h'
    · subst hc
      simp only [WsApi.broadcastGo, hb]
      exact List.mem_cons_self _ _
    · cases houtc : outcome c with
      | ok =>
        simp only [WsApi.broadcastGo, houtc]
        exact List.mem_cons_of_mem _ (ih _ h')
      | notConnected =>
        simp only [WsApi.broadcastGo, houtc]
        exact ih _ h'
      | raiseDisconnect =>
        simp only [WsApi.broadcastGo, houtc]
        exact ih _ h'
      | raiseOther =>
        simp only [WsApi.broadcastGo, houtc]
        exact ih _ h'

theorem WsApi.broadcastGo_disconnects (outcome : Nat → SendOutcome) (a : Nat)
    (ha : outcome a ≠ SendOutcome.ok) :
    ∀ (conns : List Nat) (info : List (Nat × WsApi.ConnInfo)), a ∈ conns →
      a ∈ (WsApi.broadcastGo outcome conns info).2.2 := by
  intro conns
  induction conns with
  | nil => intro info h; cases h
  | cons c rest ih =>
    intro info h
    rcases List.mem_cons.mp h with hc | h'
    · subst hc
      cases houtc : outcome a with
      | ok => exact absurd houtc ha
      | notConnected =>
        simp only [WsApi.broadcastGo, houtc]
        exact List.mem_cons_self _ _
      | raiseDisconnect =>
        simp only [WsApi.broadcastGo, houtc]
        exact List.mem_cons_self _ _
      | raiseOther =>
        simp only [WsApi.broadcastGo, houtc]
        exact List.mem_cons_self _ _
    · cases houtc : outcome c with
      | ok =>
        simp only [WsApi.broadcastGo, houtc]
        exact ih _ h'
      | notConnected =>
        simp only [WsApi.broadcastGo, houtc]
        exact List.mem_cons_of_mem _ (ih _ h')
      | raiseDisconnect =>
        simp only [WsApi.broadcastGo, houtc]
        exact List.mem_cons_of_mem _ (ih _ h')
      | raiseOther =>
        simp only [WsApi.broadcastGo, houtc]
        exact List.mem_cons_of_mem _ (ih _ h')

theorem WsApi.connect_foldl_ac (ws : Nat) (now : Int) :
    ∀ (msgs : List Msg) (s : WsApi.HubState),
    (msgs.foldl (fun s _ => { s with
        connection_info := WsApi.bumpSentHb s.connection_info ws now }) s).active_connections
      = s.active_connections := by
  intro msgs
  induction msgs with
  | nil => intro s; rfl
  | cons m rest ih => intro s; exact ih _

theorem WsApi.connect_ac (st : WsApi.HubState) (ws : Nat) (channel : String) (now : Int)
    (alertsData monitoringData : JVal) :
    (WsApi.connect st ws channel now alertsData monitoringData).1.active_connections
      = WsApi.acAfterConnect st ws channel := by
  unfold WsApi.connect
  dsimp only
  rw [WsApi.connect_foldl_ac]

/-! Claim theorems for the broadcast hub. -/

/-- C7: immediately after `cleanup_broken_connections` completes, a
subscriber whose recorded last-heartbeat timestamp is more than the
300-second staleness threshold old is absent from the subscriber registry
and from every channel's subscriber set. -/
theorem cleanup_evicts_stale (st : WsSvc.HubState) (now : Int) (alive : Nat → Bool)
    (ws : Nat) (info : WsSvc.ConnInfo)
    (hmem : (ws, info) ∈ st.connection_info)
    (hstale : now - info.last_heartbeat > 300) :
    WsSvc.evicted (WsSvc.cleanup_broken_connections st now alive) ws := by
  have hbroken : ws ∈ (st.connection_info.filter
      (fun p => decide (now - p.2.last_heartbeat > 300) || !(alive p.1))).map
        (fun p => p.1) := by
    refine List.mem_map.mpr ⟨(ws, info), ?_, rfl⟩
    refine List.mem_filter.mpr ⟨hmem, ?_⟩
    simp [hstale]
  exact WsSvc.foldl_disconnect_evicts ws _ st hbroken

theorem cleanup_evicts_stale_witness :
    (1, WsSvc.ConnInfo.mk "monitoring" 0 [] 0 0 400) ∈ stHubStale.connection_info ∧
    (701 : Int) - 400 > 300 ∧
    WsSvc.evicted (WsSvc.cleanup_broken_connections stHubStale 701 (fun _ => true)) 1 :=
  ⟨by decide, by decide,
    cleanup_evicts_stale stHubStale 701 (fun _ => true) 1
      (WsSvc.ConnInfo.mk "monitoring" 0 [] 0 0 400) (by decide) (by decide)⟩

/-- C9: broadcasting on a channel that is absent from the registry, or
whose subscriber set is empty, returns normally with no deliveries and an
unchanged state, in both WebSocketManager implementations (both embeddings
are total functions, so no error can surface). -/
theorem broadcast_empty_channel_safe (stS : WsSvc.HubState) (stA : WsApi.HubState)
    (channel : String) (outcome : Nat → SendOutcome)
    (hS : Dict.lookup channel stS.active_connections = none ∨
          Dict.lookup channel stS.active_connections = some [])
    (hA : Dict.lookup channel stA.active_connections = none ∨
          Dict.lookup channel stA.active_connections = some []) :
    WsSvc.broadcast stS channel outcome = (stS, []) ∧
    WsApi.broadcast stA channel outcome = (stA, []) := by
  constructor
  · unfold WsSvc.broadcast
    rcases hS with h | h
    · rw [h]
    · rw [h]; rfl
  · unfold WsApi.broadcast
    rcases hA with h | h
    · rw [h]
    · rw [h]; rfl

theorem WsApi.broadcast_cons (st : WsApi.HubState) (channel : String)
    (outcome : Nat → SendOutcome) (x : Nat) (xs : List Nat)
    (hl : Dict.lookup channel st.active_connections = some (x :: xs)) :
    WsApi.broadcast st channel outcome =
      ({ active_connections := st.active_connections.map
            (fun c => if c.1 = channel then
              (c.1, c.2.filter (fun y =>
                ¬ (WsApi.broadcastGo outcome (x :: xs) st.connection_info).2.2.contains y))
             else c)
         connection_info := (WsApi.broadcastGo outcome (x :: xs) st.connection_info).1.filter
            (fun p =>
              ¬ (WsApi.broadcastGo outcome (x :: xs) st.connection_info).2.2.contains p.1) },
       (WsApi.broadcastGo outcome (x :: xs) st.connection_info).2.1) := by
  unfold WsApi.broadcast
  rw [hl]
  rfl

/-- C5: in both WebSocketManager implementations, during one `broadcast`
call, a failed delivery to subscriber A (failed connected-state test or a
raising send) does not prevent delivery to another subscriber B of the
channel, and A is removed within that same call from the channel's
subscriber set and from the metadata registry (never retried); no error
surfaces to the broadcaster, the embeddings being total functions that
return normally on every path. -/
theorem broadcast_failure_isolated
    (stS : WsSvc.HubState) (stA : WsApi.HubState) (channel : String)
    (a b : Nat) (outcome : Nat → SendOutcome)
    (ha : outcome a ≠ SendOutcome.ok) (hb : outcome b = SendOutcome.ok)
    (connsS connsA : List Nat)
    (hlS : Dict.lookup channel stS.active_connections = some connsS)
    (hlA : Dict.lookup channel stA.active_connections = some connsA)
    (haS : a ∈ connsS) (hbS : b ∈ connsS)
    (haA : a ∈ connsA) (hbA : b ∈ connsA) :
    (b ∈ (WsSvc.broadcast stS channel outcome).2 ∧
     WsSvc.removedFrom (WsSvc.broadcast stS channel outcome).1 channel a) ∧
    (b ∈ (WsApi.broadcast stA channel outcome).2 ∧
     (∀ p ∈ (WsApi.broadcast stA channel outcome).1.connection_info, p.1 ≠ a) ∧
     ∀ c ∈ (WsApi.broadcast stA channel outcome).1.active_connections,
       c.1 = channel → a ∉ c.2) := by
  constructor
  · unfold WsSvc.broadcast
    rw [hlS]
    exact ⟨WsSvc.broadcastGo_delivers channel outcome b hb connsS stS hbS,
      WsSvc.broadcastGo_removes_failed channel outcome a ha connsS stS haS⟩
  · cases connsA with
    | nil => cases haA
    | cons x xs =>
      rw [WsApi.broadcast_cons stA channel outcome x xs hlA]
      have hadisc : a ∈ (WsApi.broadcastGo outcome (x :: xs) stA.connection_info).2.2 :=
        WsApi.broadcastGo_disconnects outcome a ha (x :: xs) stA.connection_info haA
      refine ⟨WsApi.broadcastGo_sends_ok outcome b hb (x :: xs) stA.connection_info hbA,
        ?_, ?_⟩
      · intro p hp
        have h2 := (List.mem_filter.mp hp).2
        rw [decide_eq_true_eq] at h2
        intro heq
        apply h2
        rw [heq]
        exact List.elem_eq_true_of_mem hadisc
      · intro c hc
        simp only [List.mem_map] at hc
        obtain ⟨q, hq, rfl⟩ := hc
        by_cases hqc : q.1 = channel
        · rw [if_pos hqc]
          intro _ hmem
          have h2 := (List.mem_filter.mp hmem).2
          rw [decide_eq_true_eq] at h2
          apply h2
          exact List.elem_eq_true_of_mem hadisc
        · rw [if_neg hqc]
          intro heq
          exact absurd heq hqc

theorem broadcast_failure_isolated_witness :
    outcomeFail0 0 ≠ SendOutcome.ok ∧
    outcomeFail0 1 = SendOutcome.ok ∧
    Dict.lookup "monitoring" stHubSvc2.active_connections = some [0, 1] ∧
    Dict.lookup "monitoring" stHubApi2.active_connections = some [0, 1] ∧
    ((1 ∈ (WsSvc.broadcast stHubSvc2 "monitoring" outcomeFail0).2 ∧
      WsSvc.removedFrom (WsSvc.broadcast stHubSvc2 "monitoring" outcomeFail0).1
        "monitoring" 0) ∧
     (1 ∈ (WsApi.broadcast stHubApi2 "monitoring" outcomeFail0).2 ∧
      (∀ p ∈ (WsApi.broadcast stHubApi2 "monitoring" outcomeFail0).1.connection_info,
        p.1 ≠ 0) ∧
      ∀ c ∈ (WsApi.broadcast stHubApi2 "monitoring" outcomeFail0).1.active_connections,
        c.1 = "monitoring" → 0 ∉ c.2)) :=
  ⟨by decide, rfl, rfl, rfl,
    broadcast_failure_isolated stHubSvc2 stHubApi2 "monitoring" 0 1 outcomeFail0
      (by decide) rfl [0, 1] [0, 1] rfl rfl (by decide) (by decide) (by decide) (by decide)⟩

/-- C6 counterexample: the `services/websocket_manager.py` Hub, on a
successful connect, sends as its first message an acknowledgement whose
"type" field is "connection_confirmed" — not "connection_established" —
and which carries no subscriber counts (no "server_info" field at all),
so the claim is false on this Hub implementation at this concrete input. -/
theorem connect_svc_ack_confirmed_counterexample :
    Dict.lookup "type" ((WsSvc.connect WsSvc.initialState 0 "monitoring" [] 0).2.headD [])
      = some (JVal.s "connection_confirmed") ∧
    Dict.lookup "type" ((WsSvc.connect WsSvc.initialState 0 "monitoring" [] 0).2.headD [])
      ≠ some (JVal.s "connection_established") ∧
    Dict.lookup "server_info"
        ((WsSvc.connect WsSvc.initialState 0 "monitoring" [] 0).2.headD []) = none := by
  refine ⟨rfl, ?_, rfl⟩
  intro h
  rw [show Dict.lookup "type" ((WsSvc.connect WsSvc.initialState 0 "monitoring" [] 0).2.headD [])
      = some (JVal.s "connection_confirmed") from rfl] at h
  injection h with h1
  injection h1 with h2
  exact absurd h2 (by decide)

/-- C6 amended: the `api/websocket.py` Hub does satisfy the claim — on a
successful connect the first message sent to the new subscriber (before
any initial snapshot or other event) has "type" exactly
"connection_established" and a "server_info" object carrying the current
subscriber counts of the post-connect state — while the
`services/websocket_manager.py` Hub instead acknowledges with
"connection_confirmed" and no counts (see the counterexample). -/
theorem connect_api_ack_established (st : WsApi.HubState) (ws : Nat) (channel : String)
    (now : Int) (alertsData monitoringData : JVal) :
    Dict.lookup "type"
        ((WsApi.connect st ws channel now alertsData monitoringData).2.headD [])
      = some (JVal.s "connection_established") ∧
    (WsApi.connect st ws channel now alertsData monitoringData).1.active_connections
      = WsApi.acAfterConnect st ws channel ∧
    Dict.lookup "server_info"
        ((WsApi.connect st ws channel now alertsData monitoringData).2.headD [])
      = some (JVal.obj
          [("channel_connections", JVal.n (((Dict.lookup channel
              (WsApi.acAfterConnect st ws channel)).getD []).length : Int)),
           ("total_connections", JVal.n (WsApi.totalConnections
              (WsApi.acAfterConnect st ws channel) : Int)),
           ("available_channels", JVal.arr ((WsApi.acAfterConnect st ws channel).map
              (fun c => JVal.s c.1)))]) :=
  ⟨rfl, WsApi.connect_ac st ws channel now alertsData monitoringData, rfl⟩

theorem broadcast_empty_channel_safe_witness :
    (Dict.lookup "logs" WsSvc.initialState.active_connections = none ∨
     Dict.lookup "logs" WsSvc.initialState.active_connections = some []) ∧
    (Dict.lookup "logs" WsApi.initialState.active_connections = none ∨
     Dict.lookup "logs" WsApi.initialState.active_connections = some []) ∧
    (WsSvc.broadcast WsSvc.initialState "logs" (fun _ => SendOutcome.ok)
        = (WsSvc.initialState, []) ∧
     WsApi.broadcast WsApi.initialState "logs" (fun _ => SendOutcome.ok)
        = (WsApi.initialState, [])) :=
  ⟨Or.inr rfl, Or.inr rfl,
    broadcast_empty_channel_safe WsSvc.initialState WsApi.initialState "logs"
      (fun _ => SendOutcome.ok) (Or.inr rfl) (Or.inr rfl)⟩

end IoTGateway
